import Mathlib

/-!
Verification of the caskly Glk runtime library (crates/glk-rs) against its
natural-language specification.

The Rust sources are shallowly embedded: pure functions become Lean
functions, stateful code becomes explicit state passing, machine integers
become `Nat` (with explicit truncation where the source truncates), and
fallible or panicking code returns `Option` / an explicit `Outcome` with a
`panic` constructor.  Each definition carries a comment pointing at the
source location it embeds.
-/

/-- Outcome of a Rust computation that can panic: either a value or a panic
(`panic!`, a failed `assert!`/`assert_eq!`, or `.unwrap()` on `None`). -/
inductive Outcome (α : Type) where
  | panicked : Outcome α
  | ok : α → Outcome α
deriving DecidableEq, Repr

/-- File modes, from `GlkFileMode` in crates/glk-rs/src/lib.rs (lines 26-39). -/
inductive GlkFileMode where
  | read
  | write
  | readWrite
  | writeAppend
deriving DecidableEq, Repr

/-- Mirror of `GlkFileMode::is_read` (lib.rs lines 42-45). -/
def GlkFileMode.is_read : GlkFileMode → Bool
  | .read => true
  | .readWrite => true
  | _ => false

/-- Mirror of `GlkFileMode::is_write` (lib.rs lines 47-53). -/
def GlkFileMode.is_write : GlkFileMode → Bool
  | .write => true
  | .readWrite => true
  | .writeAppend => true
  | _ => false

/-- Stream-close statistics, from `GlkStreamResult` in
crates/glk-rs/src/stream.rs (lines 19-25).  Counts are `u32` in Rust; the
executions considered here stay far below `2^32`, so `Nat` is used. -/
structure GlkStreamResult where
  read_count : Nat
  write_count : Nat
deriving DecidableEq, Repr

/-! ## The memory-stream backend, crates/glk-rs/src/mem_stream.rs

`MemStream` owns a byte buffer and a cursor (`RefCell<usize>`).  Bytes are
modelled as `Nat` (the source only ever stores values that came out of a
`u8` or were truncated with `as u8`, which is modelled by `% 256`). -/

/-- State of `MemStream` (mem_stream.rs lines 8-12). -/
structure MemStream where
  buf : List Nat
  cursor : Nat
deriving DecidableEq, Repr

/-- Mirror of `MemStream::put_char` (mem_stream.rs lines 72-77): writes the
byte at the cursor and advances, or silently does nothing once the cursor
has reached the end of the fixed buffer. -/
def MemStream.put_char (s : MemStream) (ch : Nat) : MemStream :=
  if s.cursor < s.buf.length then
    { buf := s.buf.set s.cursor ch, cursor := s.cursor + 1 }
  else
    s

/-- Mirror of `MemStream::put_char_uni` (mem_stream.rs lines 79-85): the
code point is written as four big-endian bytes via `put_char`; `as u8` on
the first shift is the `% 256` truncation. -/
def MemStream.put_char_uni (s : MemStream) (ch : Nat) : MemStream :=
  ((((s.put_char ((ch >>> 24) % 256)).put_char
      ((ch >>> 16) &&& 0xff)).put_char
      ((ch >>> 8) &&& 0xff)).put_char
      (ch &&& 0xff))

/-- Mirror of `MemStream::put_string` (mem_stream.rs lines 87-91): each
char of the string goes through `put_char_uni`.  A Rust `&str` is modelled
as its list of code points. -/
def MemStream.put_string (s : MemStream) (str : List Nat) : MemStream :=
  str.foldl MemStream.put_char_uni s

/-- Mirror of `MemStream::put_buffer` (mem_stream.rs lines 93-97). -/
def MemStream.put_buffer (s : MemStream) (buf : List Nat) : MemStream :=
  buf.foldl MemStream.put_char s

/-- Mirror of `MemStream::put_buffer_uni` (mem_stream.rs lines 99-103). -/
def MemStream.put_buffer_uni (s : MemStream) (buf : List Nat) : MemStream :=
  buf.foldl MemStream.put_char_uni s

/-- Mirror of `MemStream::get_char` (mem_stream.rs lines 105-112): returns
the byte under the cursor and advances, or `None` at the end of the
buffer.  The in-bounds index is read with `getD` (the source indexes a
`Vec` inside the bounds check, so the default is never used). -/
def MemStream.get_char (s : MemStream) : Option Nat × MemStream :=
  if s.cursor < s.buf.length then
    (some (s.buf.getD s.cursor 0), { s with cursor := s.cursor + 1 })
  else
    (none, s)

/-- Validity test used by `char::from_u32`: a Unicode scalar value, i.e.
below `0x110000` and not a surrogate. -/
def isUnicodeScalar (c : Nat) : Bool :=
  decide (c < 0x110000) && !(decide (0xD800 ≤ c) && decide (c ≤ 0xDFFF))

/-- Model of Rust `char::from_u32`. -/
def charFromU32 (c : Nat) : Option Nat :=
  if isUnicodeScalar c then some c else none

/-- Mirror of `MemStream::get_char_uni` (mem_stream.rs lines 122-129):
reads four bytes big-endian (each through `get_char`, with `?` propagating
`None` and keeping the bytes consumed so far), then `char::from_u32`. -/
def MemStream.get_char_uni (s : MemStream) : Option Nat × MemStream :=
  match s.get_char with
  | (none, s0) => (none, s0)
  | (some b0, s0) =>
    match s0.get_char with
    | (none, s1) => (none, s1)
    | (some b1, s1) =>
      match s1.get_char with
      | (none, s2) => (none, s2)
      | (some b2, s2) =>
        match s2.get_char with
        | (none, s3) => (none, s3)
        | (some b3, s3) =>
          (charFromU32 ((((((0 <<< 8) ||| b0) <<< 8 ||| b1) <<< 8 ||| b2) <<< 8) ||| b3), s3)

/-- Loop body of `MemStream::get_bytes` (mem_stream.rs lines 30-38): runs
`count` iterations; each `get_char` result that matches `end_char` breaks,
a `Some` is pushed, a `None` is skipped (the loop keeps going). -/
def MemStream.get_bytes_loop (s : MemStream) (count : Nat) (end_char : Option Nat) :
    List Nat × MemStream :=
  match count with
  | 0 => ([], s)
  | n + 1 =>
    match s.get_char with
    | (some ch, s') =>
      if some ch = end_char then ([], s')
      else
        let (rest, s'') := s'.get_bytes_loop n end_char
        (ch :: rest, s'')
    | (none, s') =>
      let (rest, s'') := s'.get_bytes_loop n end_char
      (rest, s'')

/-- Mirror of `MemStream::get_bytes` (mem_stream.rs lines 22-41): the
iteration count is fixed up front from the remaining bytes and the
optional maximum. -/
def MemStream.get_bytes (s : MemStream) (maxlen : Option Nat) (end_char : Option Nat) :
    List Nat × MemStream :=
  let remaining_bytes := s.buf.length - s.cursor
  let count := match maxlen with
    | some maxv => min maxv remaining_bytes
    | none => remaining_bytes
  s.get_bytes_loop count end_char

/-- Loop body of `MemStream::get_uni` (mem_stream.rs lines 51-59),
analogous to `get_bytes_loop` but over `get_char_uni`. -/
def MemStream.get_uni_loop (s : MemStream) (count : Nat) (end_char : Option Nat) :
    List Nat × MemStream :=
  match count with
  | 0 => ([], s)
  | n + 1 =>
    match s.get_char_uni with
    | (some ch, s') =>
      if some ch = end_char then ([], s')
      else
        let (rest, s'') := s'.get_uni_loop n end_char
        (ch :: rest, s'')
    | (none, s') =>
      let (rest, s'') := s'.get_uni_loop n end_char
      (rest, s'')

/-- Mirror of `MemStream::get_uni` (mem_stream.rs lines 43-62): the count
is the remaining bytes divided by four, capped by the optional maximum. -/
def MemStream.get_uni (s : MemStream) (maxlen : Option Nat) (end_char : Option Nat) :
    List Nat × MemStream :=
  let remaining_bytes := s.buf.length - s.cursor
  let count := match maxlen with
    | some maxv => min maxv (remaining_bytes / 4)
    | none => remaining_bytes / 4
  s.get_uni_loop count end_char

/-- Mirror of `MemStream::get_buffer` (mem_stream.rs lines 114-116). -/
def MemStream.get_buffer (s : MemStream) (maxlen : Option Nat) : List Nat × MemStream :=
  s.get_bytes maxlen none

/-- Mirror of `MemStream::get_line` (mem_stream.rs lines 118-120): stops at
a newline byte, which is consumed but not returned. -/
def MemStream.get_line (s : MemStream) (maxlen : Option Nat) : List Nat × MemStream :=
  s.get_bytes maxlen (some 10)

/-- Mirror of `MemStream::get_buffer_uni` (mem_stream.rs lines 131-133). -/
def MemStream.get_buffer_uni (s : MemStream) (maxlen : Option Nat) : List Nat × MemStream :=
  s.get_uni maxlen none

/-- Mirror of `MemStream::get_line_uni` (mem_stream.rs lines 135-137). -/
def MemStream.get_line_uni (s : MemStream) (maxlen : Option Nat) : List Nat × MemStream :=
  s.get_uni maxlen (some 10)

/-! ## The stream-manager wrapper, crates/glk-rs/src/stream.rs

`GlkStream` wraps a backend handler with a mode gate and read/write
counters.  Here it is instantiated at the `MemStream` backend (the only
backend in the sources whose read operations are fully implemented).
`check_write` and `check_read` (stream.rs lines 85-102) panic on a mode
violation; the panic is the `Outcome.panicked` value. -/

/-- A `GlkStream` (stream.rs lines 50-56) whose handler is a `MemStream`. -/
structure GlkMemStream where
  mode : GlkFileMode
  read_count : Nat
  write_count : Nat
  mem : MemStream
deriving DecidableEq, Repr

/-- Number of UTF-8 bytes Rust uses for one code point; `utf8Len` is what
Rust's `String::len` returns on a string modelled as a code-point list. -/
def utf8Size (c : Nat) : Nat :=
  if c < 0x80 then 1 else if c < 0x800 then 2 else if c < 0x10000 then 3 else 4

/-- Byte length of a Rust `String` holding the given code points. -/
def utf8Len (cs : List Nat) : Nat :=
  cs.foldr (fun c acc => utf8Size c + acc) 0

/-- Mirror of `GlkStream::check_write` (stream.rs lines 85-94) as a
decision: `true` when the mode admits writing, otherwise the caller
panics (`panic!("cannot write to a non-writable stream")`). -/
def GlkMemStream.check_write (s : GlkMemStream) : Bool :=
  match s.mode with
  | .write => true
  | .readWrite => true
  | .writeAppend => true
  | .read => false

/-- Mirror of `GlkStream::check_read` (stream.rs lines 96-102): `true`
when the mode admits reading, otherwise the caller panics. -/
def GlkMemStream.check_read (s : GlkMemStream) : Bool :=
  match s.mode with
  | .read => true
  | .readWrite => true
  | _ => false

/-- Mirror of `GlkStream::put_char` (stream.rs lines 104-109) at the
memory backend.  The snapshot of mem_stream.rs in the sources predates the
`WriteResponse` trait and returns no length; `Modelled from the spec:` the
final memory backend reports one logical unit per byte written, so the
response length here is 1 (spec section 4.2: writes increment
`write_count` by 1 per byte). -/
def GlkMemStream.put_char (s : GlkMemStream) (ch : Nat) : Outcome GlkMemStream :=
  if s.check_write then
    .ok { s with mem := s.mem.put_char ch, write_count := s.write_count + 1 }
  else
    .panicked

/-- Mirror of `GlkStream::put_string` (stream.rs lines 111-116) at the
memory backend.  `Modelled from the spec:` the reported length is 4 per
code point of the string (spec section 4.2). -/
def GlkMemStream.put_string (s : GlkMemStream) (str : List Nat) : Outcome GlkMemStream :=
  if s.check_write then
    .ok { s with mem := s.mem.put_string str, write_count := s.write_count + 4 * str.length }
  else
    .panicked

/-- Mirror of `GlkStream::put_buffer` (stream.rs lines 118-121) at the
memory backend.  `Modelled from the spec:` the reported length is 1 per
byte of the buffer. -/
def GlkMemStream.put_buffer (s : GlkMemStream) (buf : List Nat) : Outcome GlkMemStream :=
  if s.check_write then
    .ok { s with mem := s.mem.put_buffer buf, write_count := s.write_count + buf.length }
  else
    .panicked

/-- Mirror of `GlkStream::put_char_uni` (stream.rs lines 123-126) at the
memory backend.  `Modelled from the spec:` the reported length is 4. -/
def GlkMemStream.put_char_uni (s : GlkMemStream) (ch : Nat) : Outcome GlkMemStream :=
  if s.check_write then
    .ok { s with mem := s.mem.put_char_uni ch, write_count := s.write_count + 4 }
  else
    .panicked

/-- Mirror of `GlkStream::put_buffer_uni` (stream.rs lines 128-131) at the
memory backend.  `Modelled from the spec:` the reported length is 4 per
code point. -/
def GlkMemStream.put_buffer_uni (s : GlkMemStream) (buf : List Nat) : Outcome GlkMemStream :=
  if s.check_write then
    .ok { s with mem := s.mem.put_buffer_uni buf, write_count := s.write_count + 4 * buf.length }
  else
    .panicked

/-- Mirror of `GlkStream::get_char` (stream.rs lines 133-140): the mode
gate, then the backend read; `read_count` gains 1 when a byte came back. -/
def GlkMemStream.get_char (s : GlkMemStream) : Outcome (Option Nat × GlkMemStream) :=
  if s.check_read then
    let (ch, m) := s.mem.get_char
    let n := if ch.isSome then 1 else 0
    .ok (ch, { s with mem := m, read_count := s.read_count + n })
  else
    .panicked

/-- Mirror of `GlkStream::get_buffer` (stream.rs lines 142-147):
`read_count` gains the length of the returned byte vector. -/
def GlkMemStream.get_buffer (s : GlkMemStream) (maxlen : Option Nat) :
    Outcome (List Nat × GlkMemStream) :=
  if s.check_read then
    let (result, m) := s.mem.get_buffer maxlen
    .ok (result, { s with mem := m, read_count := s.read_count + result.length })
  else
    .panicked

/-- Mirror of `GlkStream::get_line` (stream.rs lines 149-154). -/
def GlkMemStream.get_line (s : GlkMemStream) (maxlen : Option Nat) :
    Outcome (List Nat × GlkMemStream) :=
  if s.check_read then
    let (result, m) := s.mem.get_line maxlen
    .ok (result, { s with mem := m, read_count := s.read_count + result.length })
  else
    .panicked

/-- Mirror of `GlkStream::get_char_uni` (stream.rs lines 156-163):
`read_count` gains 4 when a code point came back. -/
def GlkMemStream.get_char_uni (s : GlkMemStream) : Outcome (Option Nat × GlkMemStream) :=
  if s.check_read then
    let (ch, m) := s.mem.get_char_uni
    let n := if ch.isSome then 4 else 0
    .ok (ch, { s with mem := m, read_count := s.read_count + n })
  else
    .panicked

/-- Mirror of `GlkStream::get_buffer_uni` (stream.rs lines 165-170): the
source adds `result.len() * 4`, and `len()` on a Rust `String` is its
UTF-8 byte length, hence `utf8Len result * 4`. -/
def GlkMemStream.get_buffer_uni (s : GlkMemStream) (maxlen : Option Nat) :
    Outcome (List Nat × GlkMemStream) :=
  if s.check_read then
    let (result, m) := s.mem.get_buffer_uni maxlen
    .ok (result, { s with mem := m, read_count := s.read_count + utf8Len result * 4 })
  else
    .panicked

/-- Mirror of `GlkStream::get_line_uni` (stream.rs lines 172-177): same
`result.len() * 4` accounting as `get_buffer_uni`. -/
def GlkMemStream.get_line_uni (s : GlkMemStream) (maxlen : Option Nat) :
    Outcome (List Nat × GlkMemStream) :=
  if s.check_read then
    let (result, m) := s.mem.get_line_uni maxlen
    .ok (result, { s with mem := m, read_count := s.read_count + utf8Len result * 4 })
  else
    .panicked

/-- Mirror of `GlkStream::get_results` (stream.rs lines 199-204), which is
what `StreamManager::close` (stream.rs lines 43-48) returns after the
backend's no-op `close` (mem_stream.rs line 70). -/
def GlkMemStream.get_results (s : GlkMemStream) : GlkStreamResult :=
  { read_count := s.read_count, write_count := s.write_count }

/-- A fresh memory stream as `Glk::stream_open_memory` builds it
(entry/glk_stream.rs lines 244-252 with `MemStream::new`, mem_stream.rs
lines 15-20, and `GlkStream::new`, stream.rs lines 59-71): cursor 0 and
both counters 0. -/
def openMemoryStream (buf : List Nat) (mode : GlkFileMode) : GlkMemStream :=
  { mode := mode, read_count := 0, write_count := 0, mem := { buf := buf, cursor := 0 } }

/-- Map over the value of an `Outcome`. -/
def Outcome.map (f : α → β) : Outcome α → Outcome β
  | .panicked => .panicked
  | .ok a => .ok (f a)

/-! ## Claim C10: memory-stream writes past the end are silently discarded -/

/-- Helper for C10: one `put_char` at or past the end of the buffer is a
no-op on the whole `MemStream` state. -/
theorem MemStream.put_char_at_end (s : MemStream) (ch : Nat)
    (h : s.buf.length ≤ s.cursor) : s.put_char ch = s := by
  unfold MemStream.put_char
  rw [if_neg (by omega)]

/-- Helper for C10: `put_char_uni` at the end is a no-op (it is four
`put_char` calls). -/
theorem MemStream.put_char_uni_at_end (s : MemStream) (ch : Nat)
    (h : s.buf.length ≤ s.cursor) : s.put_char_uni ch = s := by
  unfold MemStream.put_char_uni
  rw [s.put_char_at_end _ h, s.put_char_at_end _ h, s.put_char_at_end _ h,
    s.put_char_at_end _ h]

/-- Helper for C10: folding a state-preserving step over a list preserves
the state. -/
theorem foldl_fixed {α β : Type} (f : α → β → α) (s : α) (l : List β)
    (h : ∀ b, b ∈ l → f s b = s) : l.foldl f s = s := by
  induction l with
  | nil => rfl
  | cons b t ih =>
    simp only [List.foldl_cons, h b (by simp)]
    exact ih (fun c hc => h c (by simp [hc]))

/-- C10: once a memory stream's cursor has reached the end of its fixed
buffer, every put operation (`put_char`, and `put_char_uni`, `put_string`,
`put_buffer`, `put_buffer_uni`, which are built from it) leaves the buffer
and the cursor unchanged: overflowing bytes are silently discarded with no
error and no growth (mem_stream.rs lines 72-103). -/
theorem c10_put_at_end_is_noop (s : MemStream) (ch : Nat) (str buf ubuf : List Nat)
    (h : s.buf.length ≤ s.cursor) :
    s.put_char ch = s ∧ s.put_char_uni ch = s ∧ s.put_string str = s ∧
    s.put_buffer buf = s ∧ s.put_buffer_uni ubuf = s := by
  refine ⟨s.put_char_at_end ch h, s.put_char_uni_at_end ch h, ?_, ?_, ?_⟩
  · exact foldl_fixed _ s str (fun b _ => s.put_char_uni_at_end b h)
  · exact foldl_fixed _ s buf (fun b _ => s.put_char_at_end b h)
  · exact foldl_fixed _ s ubuf (fun b _ => s.put_char_uni_at_end b h)

/-- Witness for C10 at a concrete full stream. -/
theorem c10_witness :
    let s : MemStream := { buf := [1, 2], cursor := 2 }
    s.put_char 7 = s ∧ s.put_char_uni 300 = s ∧ s.put_string [65, 66] = s ∧
    s.put_buffer [5] = s ∧ s.put_buffer_uni [70000] = s :=
  c10_put_at_end_is_noop { buf := [1, 2], cursor := 2 } 7 [65, 66] [5] [70000]
    (by decide)

/-! ## Claim C3: mode violations

The claim (and spec sections 4.2 and 7) say a read on a write-only stream
or a write on a read-only stream must fail with a typed mode error rather
than a panic.  The code panics: `check_write` (stream.rs lines 85-94) runs
`panic!("cannot write to a non-writable stream")` and `check_read`
(stream.rs lines 96-102) runs `panic!("cannot read from a non-readable
stream")`.  The spec itself records this as "a defect observed across the
code's history", so the claim is right and the code is wrong: a code bug.
The theorem below evaluates the embedded code at concrete failing inputs. -/

/-- A concrete stream opened `Read` (the failing input for writes). -/
def c3ReadStream : GlkMemStream := openMemoryStream [7] .read

/-- A concrete stream opened `Write` (the failing input for reads). -/
def c3WriteStream : GlkMemStream := openMemoryStream [7] .write

/-- A concrete stream opened `WriteAppend` (also write-only). -/
def c3AppendStream : GlkMemStream := openMemoryStream [7] .writeAppend

/-- C3 (code bug, evaluation at the failing inputs): every write operation
on a stream opened `Read` panics instead of returning a typed mode error,
and every read operation on a stream opened `Write` or `WriteAppend`
panics as well. -/
theorem c3_mode_violation_panics :
    c3ReadStream.put_char 65 = .panicked ∧
    c3ReadStream.put_string [65] = .panicked ∧
    c3ReadStream.put_buffer [65] = .panicked ∧
    c3ReadStream.put_char_uni 0x1F338 = .panicked ∧
    c3ReadStream.put_buffer_uni [65] = .panicked ∧
    c3WriteStream.get_char = .panicked ∧
    c3WriteStream.get_buffer (some 1) = .panicked ∧
    c3WriteStream.get_line none = .panicked ∧
    c3WriteStream.get_char_uni = .panicked ∧
    c3WriteStream.get_buffer_uni none = .panicked ∧
    c3WriteStream.get_line_uni none = .panicked ∧
    c3AppendStream.get_char = .panicked ∧
    c3AppendStream.get_buffer none = .panicked ∧
    c3AppendStream.get_line none = .panicked ∧
    c3AppendStream.get_char_uni = .panicked ∧
    c3AppendStream.get_buffer_uni none = .panicked ∧
    c3AppendStream.get_line_uni none = .panicked := by
  decide

/-! ## Claim C5: count accounting per operation

The read side is decided entirely by stream.rs lines 133-177 over the
memory backend.  `get_buffer_uni`/`get_line_uni` add `result.len() * 4`
where `result` is a Rust `String`, whose `len()` is its UTF-8 byte count,
not its number of code points — so a returned non-ASCII code point bumps
`read_count` by more than 4.  The counterexample below reads the single
code point ß (U+00DF, two UTF-8 bytes) and `read_count` grows by 8. -/

/-- A concrete memory stream holding one big-endian code point ß. -/
def c5Stream : GlkMemStream := openMemoryStream [0, 0, 0, 0xDF] .read

/-- C5 counterexample: reading one code point through `get_buffer_uni`
increments `read_count` by 8, not by 4 as the claim states (4 per Unicode
code point).  The returned string has exactly one code point. -/
theorem c5_counterexample :
    c5Stream.get_buffer_uni none =
      .ok ([0xDF],
        { mode := .read, read_count := 8, write_count := 0,
          mem := { buf := [0, 0, 0, 0xDF], cursor := 4 } }) ∧
    ([0xDF] : List Nat).length = 1 ∧ ¬(8 = 4 * 1) := by
  decide

/-- C5 as amended: for a memory-backed stream opened `ReadWrite`, each
write increments `write_count` by the backend-reported units (1 per byte
for `put_char`/`put_buffer`, 4 per code point for `put_char_uni`,
`put_buffer_uni` and `put_string`), and each read increments `read_count`
by 1 per byte for `get_char`/`get_buffer`/`get_line` and by 4 for a
successful `get_char_uni`, while `get_buffer_uni`/`get_line_uni` increment
it by 4 per UTF-8 byte of the returned string. -/
theorem c5_amended_counts (s : GlkMemStream) (h : s.mode = .readWrite)
    (ch : Nat) (str bs ubuf : List Nat) (maxlen : Option Nat) :
    (s.put_char ch).map (fun t => t.write_count) = .ok (s.write_count + 1) ∧
    (s.put_string str).map (fun t => t.write_count) = .ok (s.write_count + 4 * str.length) ∧
    (s.put_buffer bs).map (fun t => t.write_count) = .ok (s.write_count + bs.length) ∧
    (s.put_char_uni ch).map (fun t => t.write_count) = .ok (s.write_count + 4) ∧
    (s.put_buffer_uni ubuf).map (fun t => t.write_count) = .ok (s.write_count + 4 * ubuf.length) ∧
    (∃ p, s.get_char = .ok p ∧
      p.2.read_count = s.read_count + (if p.1.isSome then 1 else 0)) ∧
    (∃ p, s.get_buffer maxlen = .ok p ∧ p.2.read_count = s.read_count + p.1.length) ∧
    (∃ p, s.get_line maxlen = .ok p ∧ p.2.read_count = s.read_count + p.1.length) ∧
    (∃ p, s.get_char_uni = .ok p ∧
      p.2.read_count = s.read_count + (if p.1.isSome then 4 else 0)) ∧
    (∃ p, s.get_buffer_uni maxlen = .ok p ∧
      p.2.read_count = s.read_count + utf8Len p.1 * 4) ∧
    (∃ p, s.get_line_uni maxlen = .ok p ∧
      p.2.read_count = s.read_count + utf8Len p.1 * 4) := by
  have hw : s.check_write = true := by
    unfold GlkMemStream.check_write; rw [h]
  have hr : s.check_read = true := by
    unfold GlkMemStream.check_read; rw [h]
  refine ⟨?_, ?_, ?_, ?_, ?_, ?_, ?_, ?_, ?_, ?_, ?_⟩ <;>
    simp only [GlkMemStream.put_char, GlkMemStream.put_string, GlkMemStream.put_buffer,
      GlkMemStream.put_char_uni, GlkMemStream.put_buffer_uni, GlkMemStream.get_char,
      GlkMemStream.get_buffer, GlkMemStream.get_line, GlkMemStream.get_char_uni,
      GlkMemStream.get_buffer_uni, GlkMemStream.get_line_uni, hw, hr, if_true,
      Outcome.map]
  · exact ⟨_, rfl, rfl⟩
  · exact ⟨_, rfl, rfl⟩
  · exact ⟨_, rfl, rfl⟩
  · exact ⟨_, rfl, rfl⟩
  · exact ⟨_, rfl, rfl⟩
  · exact ⟨_, rfl, rfl⟩

/-- Witness for C5's amended statement at a concrete stream. -/
theorem c5_amended_witness :
    (let s := openMemoryStream [0, 0, 0, 0xDF] .readWrite
    (s.put_char 65).map (fun t => t.write_count) = .ok (s.write_count + 1) ∧
    (s.put_string [65]).map (fun t => t.write_count) = .ok (s.write_count + 4 * 1) ∧
    (s.put_buffer [65, 66]).map (fun t => t.write_count) = .ok (s.write_count + 2) ∧
    (s.put_char_uni 0xDF).map (fun t => t.write_count) = .ok (s.write_count + 4) ∧
    (s.put_buffer_uni [65]).map (fun t => t.write_count) = .ok (s.write_count + 4 * 1) ∧
    (∃ p, s.get_char = .ok p ∧
      p.2.read_count = s.read_count + (if p.1.isSome then 1 else 0)) ∧
    (∃ p, s.get_buffer none = .ok p ∧ p.2.read_count = s.read_count + p.1.length) ∧
    (∃ p, s.get_line none = .ok p ∧ p.2.read_count = s.read_count + p.1.length) ∧
    (∃ p, s.get_char_uni = .ok p ∧
      p.2.read_count = s.read_count + (if p.1.isSome then 4 else 0)) ∧
    (∃ p, s.get_buffer_uni none = .ok p ∧
      p.2.read_count = s.read_count + utf8Len p.1 * 4) ∧
    (∃ p, s.get_line_uni none = .ok p ∧
      p.2.read_count = s.read_count + utf8Len p.1 * 4)) :=
  c5_amended_counts (openMemoryStream [0, 0, 0, 0xDF] .readWrite) rfl 65 [65] [65, 66]
    [65] none

/-! ## Claim C6: sequential reads of a memory stream -/

/-- Driver for C6: `n` successive `GlkStream::get_char` calls, collecting
the results.  The panic branch cannot be reached on a readable stream; it
returns the state unchanged so the driver stays total. -/
def GlkMemStream.read_chars : Nat → GlkMemStream → List (Option Nat) × GlkMemStream
  | 0, s => ([], s)
  | n + 1, s =>
    match s.get_char with
    | .ok (ch, s') =>
      let (rest, s'') := s'.read_chars n
      (ch :: rest, s'')
    | .panicked => ([], s)

/-- Helper for C6: reading exactly the remaining bytes of a `Read`-mode
memory stream yields them in order and advances cursor and `read_count` by
that many. -/
theorem GlkMemStream.read_chars_spec (n : Nat) :
    ∀ (s : GlkMemStream), s.mode = .read →
    s.mem.buf.length = s.mem.cursor + n →
    s.read_chars n =
      ((s.mem.buf.drop s.mem.cursor).map some,
        { s with mem := { s.mem with cursor := s.mem.cursor + n },
                 read_count := s.read_count + n }) := by
  induction n with
  | zero =>
    intro s hmode hlen
    unfold GlkMemStream.read_chars
    rw [List.drop_eq_nil_of_le (by omega)]
    simp
  | succ n ih =>
    intro s hmode hlen
    have hr : s.check_read = true := by
      unfold GlkMemStream.check_read; rw [hmode]
    have hcur : s.mem.cursor < s.mem.buf.length := by omega
    unfold GlkMemStream.read_chars GlkMemStream.get_char
    rw [hr]
    simp only [if_true]
    unfold MemStream.get_char
    rw [if_pos hcur]
    simp only [Option.isSome_some, if_true]
    rw [ih { mode := s.mode, read_count := s.read_count + 1,
             write_count := s.write_count,
             mem := { buf := s.mem.buf, cursor := s.mem.cursor + 1 } }
        hmode (by simp; omega)]
    simp only [Prod.mk.injEq]
    constructor
    · rw [List.drop_eq_getElem_cons hcur, List.getD_eq_getElem?_getD,
        List.getElem?_eq_getElem hcur]
      simp only [Option.getD_some, List.map_cons]
    · simp only [Nat.add_assoc, Nat.add_comm 1 n]

/-- C6: a memory stream opened `Read` over a buffer of length `L` returns
each of the `L` bytes in order via `get_char` (each a `Some`), reports
`read_count = L` and `write_count = 0` at close (`StreamManager::close`,
stream.rs lines 43-48), and a further `get_char` returns `None` and leaves
the whole stream state unchanged. -/
theorem c6_read_all_bytes (buf : List Nat) :
    ((openMemoryStream buf .read).read_chars buf.length).1 = buf.map some ∧
    ((openMemoryStream buf .read).read_chars buf.length).2.read_count = buf.length ∧
    ((openMemoryStream buf .read).read_chars buf.length).2.get_char =
      .ok (none, ((openMemoryStream buf .read).read_chars buf.length).2) ∧
    ((openMemoryStream buf .read).read_chars buf.length).2.get_results =
      { read_count := buf.length, write_count := 0 } := by
  have h := GlkMemStream.read_chars_spec buf.length (openMemoryStream buf .read) rfl
    (by simp [openMemoryStream])
  rw [h]
  simp only [openMemoryStream]
  refine ⟨by simp, by simp, ?_, by simp [GlkMemStream.get_results]⟩
  unfold GlkMemStream.get_char MemStream.get_char
  simp [GlkMemStream.check_read]

/-! ## The window tree manager, crates/glk-rs/src/windows.rs

Windows live in `Rc<RefCell<Window>>` cells; the `WindowManager` keeps a
`HashMap<GlkWindowID, WindowRef>` plus `root` and the id counter `val`.
The embedding is an arena: `store` holds every cell ever allocated, keyed
by id (a cell stays alive after `HashMap::remove` because child links and
local `WindowRef`s keep strong references to it in all executions modelled
here), and `windows` is the HashMap's key set.  `Rc::ptr_eq` on cells is
id equality (each cell is allocated once under a fresh id).  A `Weak`
parent pointer upgrades successfully exactly when the cell is in `store`.
Rendering-only fields (`window`, `command`, `method`, `keywin`) are
omitted; no claim touches them. -/

/-- Mirror of `WindowType` (windows.rs lines 660-680). -/
inductive WindowType where
  | textBuffer
  | textGrid
  | graphics
  | blank
  | pair
  | root
deriving DecidableEq, Repr

/-- Mirror of `Window` (windows.rs lines 14-31); the defaults are those of
`Window::default()` (`WindowType` defaults to `Root`). -/
structure Window where
  wintype : WindowType := .root
  rock : Nat := 0
  parent : Option Nat := none
  child1 : Option Nat := none
  child2 : Option Nat := none
  stream : Nat := 0
  echo_stream : Option Nat := none
deriving DecidableEq, Repr

/-- Mirror of `WindowManager` (windows.rs lines 191-196) plus the arena
`store` that models the `Rc` cells. -/
structure WinManager where
  root : Option Nat := none
  windows : List Nat := []
  store : List (Nat × Window) := []
  val : Nat := 0
deriving DecidableEq, Repr

/-- Cell of an id in the arena (an alive `Rc` cell; `Weak::upgrade`). -/
def WinManager.cell (m : WinManager) (i : Nat) : Option Window :=
  List.lookup i m.store

/-- Overwrite a cell in the arena (a `RefCell` mutation). -/
def WinManager.setCell (m : WinManager) (i : Nat) (w : Window) : WinManager :=
  { m with store := m.store.map (fun p => if p.1 = i then (i, w) else p) }

/-- Lookup through the HashMap (`self.windows.get(&id)`): the id must be a
key of the map; the cell is then read from the arena. -/
def WinManager.getw (m : WinManager) (i : Nat) : Option Window :=
  if i ∈ m.windows then m.cell i else none

/-- Mirror of `WindowManager::open_window` (windows.rs lines 200-243).  On
the first call it creates the hidden `Root` cell under id 0; it then
asserts that the map holds exactly one window (`assert!` /
`assert_eq!`, which panic whenever a top-level window already exists) and
hangs a fresh window under the root as `child1`.  The source's return type
is `Option` but no path returns `None`: every call either panics or
returns the new id. -/
def WinManager.open_window (m : WinManager) (wintype : WindowType) (rock : Nat) :
    Outcome (Nat × WinManager) :=
  let step : Outcome WinManager :=
    match m.root with
    | none =>
      -- assert!(self.windows.is_empty())
      if m.windows = [] then
        .ok { m with root := some 0, windows := [0],
                     store := (0, { wintype := .root }) :: m.store, val := m.val + 1 }
      else
        .panicked
    | some _ => .ok m
  match step with
  | .panicked => .panicked
  | .ok m1 =>
    -- assert_eq!(self.windows.len(), 1)
    if m1.windows.length = 1 then
      match m1.cell 0 with
      | none => .panicked  -- .unwrap() on windows.get(&0)
      | some rootw =>
        let id := m1.val
        let mainw : Window := { wintype := wintype, rock := rock, parent := some 0 }
        let m2 := m1.setCell 0 { rootw with child1 := some id }
        .ok (id, { m2 with windows := m2.windows ++ [id],
                           store := (id, mainw) :: m2.store, val := m2.val + 1 })
    else
      .panicked

/-- Mirror of `WindowRef::split` (windows.rs lines 400-453) wrapped in
`WindowManager::split` (windows.rs lines 282-305), with target id `t`.
The manager assigns the fresh ids (`pid` for the pair window, `nid = pid +
1` for the new leaf) right after `WindowRef::split` builds the cells and
before anything reads them, so allocating them up front is observationally
the same.  Structural steps, in source order: the new leaf and the pair
cell (children `t` and `nid`) are built; the old parent's child slot that
held `t` (compared with `Rc::ptr_eq`) is repointed at the pair; `t`'s and
the leaf's parent become the pair, the pair's parent the old parent.
Panics: target of type `Root` (the `assert!`), or a missing/dead parent
pointer (`.unwrap()`s).  A target id absent from the map returns `None`
(the `?` operator). -/
def WinManager.split (m : WinManager) (t : Nat) (wintype : WindowType) (rock : Nat) :
    Outcome (Option (Nat × WinManager)) :=
  match m.getw t with
  | none => .ok none
  | some tw =>
    if tw.wintype = .root then .panicked
    else
      match tw.parent with
      | none => .panicked
      | some p =>
        match m.cell p with
        | none => .panicked  -- Weak::upgrade failed
        | some pw =>
          let pid := m.val
          let nid := m.val + 1
          let neww : Window := { wintype := wintype, rock := rock, parent := some pid }
          let pairw : Window := { wintype := .pair, child1 := some t, child2 := some nid,
                                  parent := some p }
          let pw' := if pw.child1 = some t then { pw with child1 := some pid }
            else if pw.child2.isSome then { pw with child2 := some pid }
            else pw
          let tw' := { tw with parent := some pid }
          let m1 := (m.setCell p pw').setCell t tw'
          let m2 := { m1 with windows := m1.windows ++ [pid, nid],
                              store := (nid, neww) :: (pid, pairw) :: m1.store,
                              val := m1.val + 2 }
          .ok (some (nid, m2))

/-- Mirror of `WindowRef::clean_tree` (windows.rs lines 455-466): walks
`child1` then `child2` recursively and clears both links of every visited
cell — including, crucially, the whole subtree of the surviving sibling,
because the caller invokes it on the pair window while the sibling is
still its child.  `fuel` bounds the recursion (every execution modelled
here is a finite tree, and callers pass the arena size). -/
def WinManager.clean_tree (m : WinManager) (fuel : Nat) (i : Nat) : WinManager :=
  match fuel with
  | 0 => m
  | fuel + 1 =>
    match m.cell i with
    | none => m
    | some w =>
      let m1 := match w.child1 with
        | some c => m.clean_tree fuel c
        | none => m
      let m2 := match w.child2 with
        | some c => m1.clean_tree fuel c
        | none => m1
      match m2.cell i with
      | none => m2
      | some w' => m2.setCell i { w' with child1 := none, child2 := none }

/-- Mirror of `WindowRef::get_sibling` (windows.rs lines 542-553) on the
window with id `i`: `None` if the parent is missing, dead or the hidden
root; otherwise the parent's other child — with the source quirk that a
parent whose `child1` is `None` makes the `?` bail out to `None`, and that
when `i` is not `child1` the function returns `child1` unconditionally. -/
def WinManager.get_sibling (m : WinManager) (i : Nat) : Option Nat :=
  match m.cell i with
  | none => none
  | some w =>
    match w.parent with
    | none => none
    | some p =>
      match m.cell p with
      | none => none
      | some pw =>
        if pw.wintype = .root then none
        else
          match pw.child1 with
          | none => none
          | some c1 => if c1 = i then pw.child2 else some c1

/-- Mirror of `WindowRef::get_parent` (windows.rs lines 535-539): the
parent pointer, upgraded against the arena. -/
def WinManager.get_parent (m : WinManager) (i : Nat) : Option Nat :=
  match m.cell i with
  | none => none
  | some w =>
    match w.parent with
    | none => none
    | some p => if (m.cell p).isSome then some p else none

/-- Mirror of `WindowRef::close_window` (windows.rs lines 475-509) for the
window with id `d` (already removed from the map, its cell still alive):
unwrap the parent `p`; if `p` has a live grandparent `g`, replace `p` in
`g`'s child slot (chosen by `Rc::ptr_eq` against `child1`) with `d`'s
sibling; then `clean_tree(p)`.  The sibling's parent pointer is never
touched, and neither `p` nor the sibling's subtree leave the arena or the
map. -/
def WinManager.close_window (m : WinManager) (d : Nat) : Outcome WinManager :=
  match m.cell d with
  | none => .panicked
  | some w =>
    match w.parent with
    | none => .panicked  -- self.get_parent().unwrap()
    | some p =>
      match m.cell p with
      | none => .panicked
      | some pw =>
        let step : Outcome WinManager :=
          match pw.parent with
          | some g =>
            match m.cell g with
            | none => .ok m  -- dead grandparent: parent.get_parent() is None
            | some gw =>
              match m.get_sibling d with
              | none => .panicked  -- self.get_sibling().unwrap()
              | some sib =>
                let is_child1 := gw.child1 = some p
                let gw' := if is_child1 then { gw with child1 := some sib }
                  else { gw with child2 := some sib }
                .ok (m.setCell g gw')
          | none => .ok m
        match step with
        | .panicked => .panicked
        | .ok m1 => .ok (m1.clean_tree m1.store.length p)

/-- Mirror of `WindowManager::close` (windows.rs lines 307-311): remove
the id from the map (`None` when absent), keep the cell alive, and run
`close_window` on it. -/
def WinManager.close (m : WinManager) (win : Nat) : Outcome (Option WinManager) :=
  if win ∈ m.windows then
    let m0 := { m with windows := m.windows.filter (fun x => x ≠ win) }
    match m0.close_window win with
    | .panicked => .panicked
    | .ok m1 => .ok (some m1)
  else
    .ok none

/-! ## Concrete window-manager traces for C1, C2 and C8 -/

/-- Projection of an `open_window` outcome to the resulting state (the
default is never used in the traces below, which the theorems prove by
also pinning the full outcome). -/
def okStateD (d : WinManager) : Outcome (Nat × WinManager) → WinManager
  | .ok (_, s) => s
  | .panicked => d

/-- Projection of a `split` outcome to the resulting state. -/
def splitStateD (d : WinManager) : Outcome (Option (Nat × WinManager)) → WinManager
  | .ok (some (_, s)) => s
  | _ => d

/-- Projection of a `close` outcome to the resulting state. -/
def closeStateD (d : WinManager) : Outcome (Option WinManager) → WinManager
  | .ok (some s) => s
  | _ => d

/-- State after `open(TextBuffer, rock 73)`: hidden root 0, window 1. -/
def wmT1 : WinManager := okStateD {} (WinManager.open_window {} .textBuffer 73)

/-- State after splitting window 1 (`TextGrid`, rock 84): pair 2 with
children 1 and 3. -/
def wmT2 : WinManager := splitStateD {} (wmT1.split 1 .textGrid 84)

/-- State after splitting window 1 again (`TextGrid`, rock 85): pair 4
with children 1 and 5; pair 2 now has children 4 and 3. -/
def wmT3 : WinManager := splitStateD {} (wmT2.split 1 .textGrid 85)

/-- State after closing window 3 in `wmT3` (claim C1's failing input). -/
def c1Final : WinManager := closeStateD {} (wmT3.close 3)

/-- State after closing window 5 in `wmT3` (claim C2's failing input:
window 5 is the leaf freshly created by splitting window 1). -/
def c2Final : WinManager := closeStateD {} (wmT3.close 5)

/-- C1 (code bug, evaluation at the failing input): after
`open(TextBuffer); split(1, TextGrid); split(1, TextGrid); close(3)` the
tree invariant is broken.  `close` removed only id 3 from the map and
`clean_tree` ran from pair 2 through its still-attached children, so pair
4 — the window the root now points at, still a key of the map — is a Pair
window with zero children, and window 1's parent pointer still names pair
4, which no longer lists window 1 (nor anything) as a child.  This
violates both of the spec's close post-conditions (no Pair with fewer
than two children, no dangling parent pointer). -/
theorem c1_close_leaves_childless_pair :
    wmT3.close 3 = .ok (some c1Final) ∧
    4 ∈ c1Final.windows ∧
    (c1Final.cell 0).map (fun w => w.child1) = some (some 4) ∧
    (c1Final.cell 4).map (fun w => w.wintype) = some .pair ∧
    (c1Final.cell 4).map (fun w => w.child1) = some none ∧
    (c1Final.cell 4).map (fun w => w.child2) = some none ∧
    (c1Final.cell 1).map (fun w => w.parent) = some (some 4) ∧
    2 ∈ c1Final.windows ∧
    (c1Final.cell 2).map (fun w => w.wintype) = some .pair ∧
    (c1Final.cell 2).map (fun w => w.child1) = some none := by
  decide

/-- C2 (code bug, evaluation at the failing input): in a tree of two
windows (1 and 3 under pair 2), splitting window 1 and then immediately
closing the new window 5 does not restore window 1's relationships:
before the split its parent was pair 2 and its sibling window 3, but
afterwards `get_parent` returns pair 4 — the defunct pair created by the
split, which `clean_tree` emptied — and `get_sibling` returns `None`,
because `close_window` never repaired the surviving window's parent
pointer. -/
theorem c2_split_close_not_inverse :
    wmT2.get_parent 1 = some 2 ∧
    wmT2.get_sibling 1 = some 3 ∧
    wmT2.split 1 .textGrid 85 = .ok (some (5, wmT3)) ∧
    wmT3.close 5 = .ok (some c2Final) ∧
    c2Final.get_parent 1 = some 4 ∧
    c2Final.get_sibling 1 = none ∧
    (some 4 : Option Nat) ≠ some 2 ∧
    (none : Option Nat) ≠ some 3 := by
  decide

/-! ## Claim C8: opening a window when a root already exists -/

/-- C8 as amended: once a top-level window exists (the window map holds
more than the bare root), `open_window` panics on the
`assert_eq!(self.windows.len(), 1)` at windows.rs line 221 instead of
returning an empty option. -/
theorem c8_amended_open_panics (m : WinManager) (wt : WindowType) (rock : Nat)
    (h1 : m.root.isSome) (h2 : m.windows.length ≠ 1) :
    m.open_window wt rock = .panicked := by
  obtain ⟨r, hr⟩ := Option.isSome_iff_exists.mp h1
  unfold WinManager.open_window
  rw [hr]
  dsimp only
  rw [if_neg h2]

/-- C8 counterexample: with the root and one top-level window present
(state `wmT1`), another `open` with no parent does not return an empty
option leaving the tree unchanged — it panics (the assertion at
windows.rs line 221; the repository's own test
`must_use_existing_window_for_splits` is `#[should_panic]`). -/
theorem c8_open_counterexample :
    WinManager.open_window wmT1 .textBuffer 74 = .panicked ∧
    ∀ x, WinManager.open_window wmT1 .textBuffer 74 ≠ .ok x := by
  have h1 : WinManager.open_window wmT1 .textBuffer 74 = .panicked := by decide
  exact ⟨h1, fun x h => by rw [h1] at h; exact Outcome.noConfusion h⟩

/-- Witness for C8's amended statement at the concrete state `wmT1`. -/
theorem c8_amended_witness :
    WinManager.open_window wmT1 .textGrid 90 = .panicked :=
  c8_amended_open_panics wmT1 .textGrid 90 (by decide) (by decide)

/-! ## The facade's stream calls, crates/glk-rs/src/entry/glk_stream.rs

`Glk` routes stream calls through the `StreamManager` table.  For claim C4
the relevant state is the window table (only the `echo_stream` field
matters; `WindowRef::get_echo_stream`, windows.rs lines 100-102, reads it)
and the stream table.  A stream's backend is either a window (whose
`GlkStreamHandler::put_char`, windows.rs lines 104-108 with `write_string`,
windows.rs lines 326-335, sends a message to the rendering thread and
returns `WriteResponse { len: 0, wait_needed: true }` — so the wrapper adds
0 to `write_count`; the deferred count of `await_response`, stream.rs
lines 73-83, is never collected by any caller in the sources) or a memory
buffer. -/

/-- Backend of a facade stream: a window's id, or a memory buffer. -/
inductive StreamBackend where
  | window (wid : Nat)
  | mem (m : MemStream)
deriving DecidableEq, Repr

/-- One entry of the `StreamManager` table (a `GlkStream`, stream.rs lines
50-56). -/
structure FacadeStream where
  mode : GlkFileMode
  read_count : Nat
  write_count : Nat
  backend : StreamBackend
deriving DecidableEq, Repr

/-- Window-table entry as far as the stream calls see it: its optional
echo stream (windows.rs line 29). -/
structure WinLite where
  echo_stream : Option Nat
deriving DecidableEq, Repr

/-- The facade state for the stream calls: the window table (`win_mgr`)
and the stream table (`stream_mgr`). -/
structure GlkState where
  winTable : List (Nat × WinLite)
  streamTable : List (Nat × FacadeStream)
deriving DecidableEq, Repr

/-- Mirror of `GlkStream::put_char` (stream.rs lines 104-109) over either
backend: the mode gate, the handler call, and `write_count += response.len`.
A window handler returns length 0 (windows.rs lines 326-335); the memory
handler mutates the buffer (mem_stream.rs lines 72-77) and
(`Modelled from the spec:` the snapshot's memory backend predates
`WriteResponse`) reports 1 unit per byte. -/
def FacadeStream.put_char (s : FacadeStream) (ch : Nat) : Outcome FacadeStream :=
  if s.mode.is_write then
    match s.backend with
    | .window _ => .ok { s with write_count := s.write_count + 0 }
    | .mem m => .ok { s with backend := .mem (m.put_char ch),
                             write_count := s.write_count + 1 }
  else
    .panicked

/-- Mirror of `GlkStream::get_echo_stream` (stream.rs lines 206-208): the
window handler reads the window's `echo_stream` field (windows.rs lines
100-102); the memory handler returns `None` (mem_stream.rs lines 66-68). -/
def GlkState.get_echo_stream (st : GlkState) (s : FacadeStream) : Option Nat :=
  match s.backend with
  | .window wid => (List.lookup wid st.winTable).bind (fun w => w.echo_stream)
  | .mem _ => none

/-- Replace a stream-table entry. -/
def GlkState.setStream (st : GlkState) (sid : Nat) (s : FacadeStream) : GlkState :=
  { st with streamTable := st.streamTable.map (fun p => if p.1 = sid then (sid, s) else p) }

/-- Mirror of `Glk::put_char_stream` (entry/glk_stream.rs lines 72-79):
write to the stream, then recurse into its echo target with the same
call.  The recursion is bounded by `fuel`; an echo cycle, which would
recurse forever in the source, exhausts the fuel and is reported as a
panic (divergence).  An unknown stream id is silently ignored
(`if let Some(stream) = ...`). -/
def GlkState.put_char_stream (st : GlkState) (fuel : Nat) (sid : Nat) (ch : Nat) :
    Outcome GlkState :=
  match fuel with
  | 0 => .panicked
  | fuel + 1 =>
    match List.lookup sid st.streamTable with
    | none => .ok st
    | some s =>
      match s.put_char ch with
      | .panicked => .panicked
      | .ok s' =>
        let st1 := st.setStream sid s'
        match st1.get_echo_stream s' with
        | some echo => st1.put_char_stream fuel echo ch
        | none => .ok st1

/-- Mirror of `Glk::stream_close` (entry/glk_stream.rs lines 192-215): a
window stream cannot be closed this way (`None`, and nothing changes); any
other stream is removed from the table (with its final counts, and for a
memory stream its buffer), and then every window whose `echo_stream`
pointed at the closed id has that reference cleared
(`remove_echo_stream_if_matches`, windows.rs lines 345-349). -/
def GlkState.stream_close (st : GlkState) (sid : Nat) :
    Option ((GlkStreamResult × Option (List Nat)) × GlkState) :=
  match List.lookup sid st.streamTable with
  | none => none
  | some s =>
    match s.backend with
    | .window _ => none
    | .mem m =>
      let res : GlkStreamResult := { read_count := s.read_count, write_count := s.write_count }
      let st1 : GlkState :=
        { st with streamTable := st.streamTable.filter (fun p => p.1 ≠ sid) }
      let st2 : GlkState :=
        { st1 with winTable := st1.winTable.map (fun p =>
            if p.2.echo_stream = some sid then (p.1, { echo_stream := none }) else p) }
      some ((res, some m.buf), st2)

/-! ## Claim C4: echo fan-out and echo-target closing -/

/-- C4 failing input: window 1's stream is stream 5 (window backend, mode
`Write`) with echo target stream 10 (memory backend, mode `Write`);
window 2 has no echo. -/
def c4Start : GlkState :=
  { winTable := [(1, { echo_stream := some 10 }), (2, { echo_stream := none })],
    streamTable :=
      [(5, { mode := .write, read_count := 0, write_count := 0, backend := .window 1 }),
       (10, { mode := .write, read_count := 0, write_count := 0,
              backend := .mem { buf := [0], cursor := 0 } })] }

/-- State after `put_char_stream(5, 'x')` on `c4Start`. -/
def c4AfterPut : GlkState :=
  { winTable := [(1, { echo_stream := some 10 }), (2, { echo_stream := none })],
    streamTable :=
      [(5, { mode := .write, read_count := 0, write_count := 0, backend := .window 1 }),
       (10, { mode := .write, read_count := 0, write_count := 1,
              backend := .mem { buf := [120], cursor := 1 } })] }

/-- State after closing stream 10 from `c4AfterPut`: stream 10 is gone
and window 1's echo reference is cleared. -/
def c4AfterClose : GlkState :=
  { winTable := [(1, { echo_stream := none }), (2, { echo_stream := none })],
    streamTable :=
      [(5, { mode := .write, read_count := 0, write_count := 0, backend := .window 1 })] }

/-- C4 (code bug, evaluation at the failing input): writing N = 1 unit to
window stream 5, which has echo target 10, mirrors the write to stream 10
(its `write_count` rises by 1 and the byte lands in its buffer), but the
source stream's own `write_count` rises by 0, not 1 — the window backend
reports length 0 and the asynchronous count is never collected, while the
repository's own test `can_count_chars_in_output` (entry/glk_win.rs lines
498-522) expects 1.  The claim's second half does hold: closing the echo
target via `stream_close` clears window 1's echo reference, and a
subsequent write to stream 5 touches nothing else (the state is
unchanged, its own count again gaining 0). -/
theorem c4_echo_write_count :
    c4Start.put_char_stream 4 5 120 = .ok c4AfterPut ∧
    (List.lookup 5 c4AfterPut.streamTable).map (fun s => s.write_count) = some 0 ∧
    (some 0 : Option Nat) ≠ some 1 ∧
    (List.lookup 10 c4AfterPut.streamTable).map (fun s => s.write_count) = some 1 ∧
    c4AfterPut.stream_close 10 = some ((⟨0, 1⟩, some [120]), c4AfterClose) ∧
    (List.lookup 1 c4AfterClose.winTable).map (fun w => w.echo_stream) = some none ∧
    c4AfterClose.put_char_stream 4 5 121 = .ok c4AfterClose := by
  decide

/-! ## The event manager, crates/glk-rs/src/events.rs

`EventManager` keeps a FIFO of realized events (`pending`), a
`timer_fired` flag, and the receiving end of an mpsc channel.  The channel
is modelled by `rxBuf` (events already sent and waiting in the channel)
plus, for the blocking call, `future` — the events that would arrive later
if the call blocks on `recv()`.  The manager itself holds a clone of the
sender (`self.tx`), so `recv()` can never see a disconnected channel: it
either returns the next event or blocks forever, which the model encodes
as `none`.  The messages `pop_event` sends to the timer's update channel
do not affect the observable result and are not modelled. -/

/-- Mirror of `GlkEvent` (events.rs lines 12-79); payloads are numeric
ids / coordinates, a line buffer is a list of code points, and a key is
its code. -/
inductive GlkEvent where
  | none
  | timer
  | charInput (win : Nat) (key : Nat)
  | lineInput (win : Nat) (buf : List Nat)
  | mouse (win : Nat) (x : Nat) (y : Nat)
  | arrange (win : Nat)
  | redraw (win : Nat)
  | hyperlink (win : Nat) (linkval : Nat)
  | soundNotify (resource_id : Nat) (notify : Nat)
  | volumeNotify (notify : Nat)
deriving DecidableEq, Repr

/-- State of `EventManager` (events.rs lines 81-89) as seen by
`pop_event`/`block_until_event`. -/
structure EventManagerState where
  pending : List GlkEvent
  timer_fired : Bool
  timer_interval : Nat
  rxBuf : List GlkEvent
deriving DecidableEq, Repr

/-- One iteration of the `try_recv` drain loop in `fill_event_queue`
(events.rs lines 107-114): a `Timer` sets the flag, anything else is
queued. -/
def EventManagerState.fillStep (s : EventManagerState) (e : GlkEvent) : EventManagerState :=
  match e with
  | .timer => { s with timer_fired := true }
  | other => { s with pending := s.pending ++ [other] }

/-- Mirror of `EventManager::fill_event_queue` (events.rs lines 107-114):
drain everything waiting on the channel, in arrival order. -/
def EventManagerState.fill_event_queue (s : EventManagerState) : EventManagerState :=
  s.rxBuf.foldl EventManagerState.fillStep { s with rxBuf := [] }

/-- Mirror of `EventManager::pop_event` (events.rs lines 118-134): drain
the channel, return the oldest queued event, else a synthesized `Timer` if
the flag is set, else `None`. -/
def EventManagerState.pop_event (s : EventManagerState) : GlkEvent × EventManagerState :=
  let s1 := s.fill_event_queue
  match s1.pending with
  | e :: rest => (e, { s1 with pending := rest })
  | [] =>
    if s1.timer_fired then (.timer, { s1 with timer_fired := false })
    else (.none, s1)

/-- Mirror of `EventManager::block_until_event` (events.rs lines 138-154):
drain and pop; a real event is returned at once, otherwise the call blocks
on `recv()` and returns whatever arrives next (`future`'s head), blocking
forever (`Option.none`) when nothing ever will. -/
def EventManagerState.block_until_event (s : EventManagerState) (future : List GlkEvent) :
    Option (GlkEvent × EventManagerState × List GlkEvent) :=
  let s0 := s.fill_event_queue
  let r := s0.pop_event
  if r.1 = .none then
    match future with
    | [] => Option.none
    | f :: rest => some (f, r.2, rest)
  else
    some (r.1, r.2, future)

/-! ## Claim C7: `block_until_event` never returns the `None` event -/

/-- Helper for C7: the drain loop in closed form, by induction over the
channel contents. -/
theorem fillStep_foldl (rx : List GlkEvent) :
    ∀ (p : List GlkEvent) (t : Bool) (i : Nat),
    List.foldl EventManagerState.fillStep
        { pending := p, timer_fired := t, timer_interval := i, rxBuf := [] } rx =
      { pending := p ++ rx.filter (fun e => e ≠ .timer),
        timer_fired := t || rx.any (fun e => e = .timer),
        timer_interval := i, rxBuf := [] } := by
  induction rx with
  | nil => intro p t i; simp
  | cons e rest ih =>
    intro p t i
    cases e <;>
      simp only [List.foldl_cons, EventManagerState.fillStep, List.filter_cons,
        List.any_cons, ih] <;>
      simp

/-- Helper for C7: what `fill_event_queue` does, in closed form. -/
theorem EventManagerState.fill_event_queue_eq (s : EventManagerState) :
    s.fill_event_queue =
      { pending := s.pending ++ s.rxBuf.filter (fun e => e ≠ .timer),
        timer_fired := s.timer_fired || s.rxBuf.any (fun e => e = .timer),
        timer_interval := s.timer_interval,
        rxBuf := [] } := by
  obtain ⟨p, t, i, rx⟩ := s
  exact fillStep_foldl rx p t i

/-- C7: `block_until_event` never returns the `None` event.  In any state
whose queued events (FIFO and channel buffer) are not `None` — true of
every reachable state, since the only producers are the timer thread
(`Timer`, events.rs lines 183-203) and window line input (`LineInput`) —
(1) a returned event is never `None`; (2) if an event is queued it is
returned immediately, without touching the future channel traffic; and
(3) the call blocks (no return) only when nothing is queued, no timer has
fired, and nothing will ever arrive. -/
theorem c7_block_until_event_never_none (s : EventManagerState) (future : List GlkEvent)
    (hp : ∀ e ∈ s.pending, e ≠ .none)
    (hrx : ∀ e ∈ s.rxBuf, e ≠ .none)
    (hf : ∀ e ∈ future, e ≠ .none) :
    (∀ r s' f', s.block_until_event future = some (r, s', f') → r ≠ .none) ∧
    (∀ e rest, s.pending = e :: rest →
      ∃ s', s.block_until_event future = some (e, s', future)) ∧
    (s.block_until_event future = Option.none →
      s.pending = [] ∧ s.rxBuf = [] ∧ s.timer_fired = false ∧ future = []) := by
  obtain ⟨p, t, i, rx⟩ := s
  simp only at hp hrx
  simp only [EventManagerState.block_until_event, EventManagerState.pop_event]
  rw [EventManagerState.fill_event_queue_eq]
  rw [EventManagerState.fill_event_queue_eq]
  simp only [List.filter_nil, List.any_nil, List.append_nil, Bool.or_false]
  rcases hP : p ++ List.filter (fun e => decide (e ≠ GlkEvent.timer)) rx with _ | ⟨e0, restP⟩
  · simp only [hP]
    by_cases hT : (t || rx.any fun e => decide (e = GlkEvent.timer)) = true
    · simp only [hT]
      simp only [if_true, reduceCtorEq, if_false]
      refine ⟨?_, ?_, ?_⟩
      · intro r s' f' h
        simp only [Option.some.injEq, Prod.mk.injEq] at h
        obtain ⟨h2, -, -⟩ := h
        subst h2
        simp
      · intro e rest hpe
        rw [hpe] at hP
        simp at hP
      · intro h
        exact absurd h (by simp)
    · have ht0 : t = false := by
        have := Bool.eq_false_iff.mpr hT
        rw [Bool.or_eq_false_iff] at this
        exact this.1
      have hany : (rx.any fun e => decide (e = GlkEvent.timer)) = false := by
        have := Bool.eq_false_iff.mpr hT
        rw [Bool.or_eq_false_iff] at this
        exact this.2
      have hp0 : p = [] := (List.append_eq_nil.mp hP).1
      have hfil : List.filter (fun e => decide (e ≠ GlkEvent.timer)) rx = [] :=
        (List.append_eq_nil.mp hP).2
      have hrx0 : rx = [] := by
        rw [List.eq_nil_iff_forall_not_mem]
        intro e he
        have h1 := List.filter_eq_nil_iff.mp hfil e he
        have h2 := List.any_eq_false.mp hany e he
        simp at h1 h2
        exact h2 h1
      simp only [ht0, hany, Bool.or_self, Bool.false_eq_true, if_false]
      simp only [reduceIte]
      match future with
      | [] =>
        refine ⟨?_, ?_, ?_⟩
        · intro r s' f' h
          simp at h
        · intro e rest hpe; rw [hpe] at hp0; exact absurd hp0 (by simp)
        · intro h
          refine ⟨hp0, hrx0, ?_, rfl⟩
          simp [ht0]
      | f :: rest =>
        refine ⟨?_, ?_, ?_⟩
        · intro r s' f' h
          simp only [Option.some.injEq, Prod.mk.injEq] at h
          obtain ⟨h2, -, -⟩ := h
          subst h2
          exact hf f (by simp)
        · intro e rest' hpe; rw [hpe] at hp0; exact absurd hp0 (by simp)
        · intro h
          exact absurd h (by simp)
  · simp only [hP]
    have he0 : e0 ≠ GlkEvent.none := by
      have hmem : e0 ∈ p ++ List.filter (fun e => decide (e ≠ GlkEvent.timer)) rx := by
        rw [hP]; simp
      rcases List.mem_append.mp hmem with h | h
      · exact hp e0 h
      · exact hrx e0 (List.mem_of_mem_filter h)
    rw [if_neg he0]
    refine ⟨?_, ?_, ?_⟩
    · intro r s' f' h
      simp only [Option.some.injEq, Prod.mk.injEq] at h
      obtain ⟨h2, -, -⟩ := h
      subst h2
      exact he0
    · intro e rest hpe
      subst hpe
      simp only [List.cons_append, List.cons.injEq] at hP
      exact ⟨_, by rw [hP.1]⟩
    · intro h; exact absurd h (by simp)

/-- Witness for C7 at a concrete state with one queued key event. -/
theorem c7_witness :
    (let s : EventManagerState :=
      { pending := [.charInput 1 2], timer_fired := false, timer_interval := 0, rxBuf := [] }
    (∀ r s' f', s.block_until_event [] = some (r, s', f') → r ≠ .none) ∧
    (∀ e rest, s.pending = e :: rest →
      ∃ s', s.block_until_event [] = some (e, s', [])) ∧
    (s.block_until_event [] = Option.none →
      s.pending = [] ∧ s.rxBuf = [] ∧ s.timer_fired = false ∧ ([] : List GlkEvent) = [])) :=
  c7_block_until_event_never_none
    { pending := [.charInput 1 2], timer_fired := false, timer_interval := 0, rxBuf := [] }
    [] (by decide) (by decide) (by decide)

/-! ## UTF-8 encoding and decoding for file streams

Writing: `FileStream::put_char_uni` (file_stream.rs lines 175-182) encodes
the code point with `char::encode_utf8` and appends the bytes to the file
(`GlkStream::char_to_bytestream`, stream.rs lines 214-219, is the same
encoding).  Reading: `GlkStream::bytestream_to_char` (stream.rs lines
221-282) decodes one code point from the byte stream by inspecting the
lead byte's high bits. -/

/-- Model of Rust `char::encode_utf8` on a Unicode scalar value: the
standard 1-4 byte UTF-8 forms. -/
def encodeUtf8 (c : Nat) : List Nat :=
  if c < 0x80 then [c]
  else if c < 0x800 then
    [0xC0 ||| ((c >>> 6) &&& 0x1F), 0x80 ||| (c &&& 0x3F)]
  else if c < 0x10000 then
    [0xE0 ||| ((c >>> 12) &&& 0x0F), 0x80 ||| ((c >>> 6) &&& 0x3F), 0x80 ||| (c &&& 0x3F)]
  else
    [0xF0 ||| ((c >>> 18) &&& 0x07), 0x80 ||| ((c >>> 12) &&& 0x3F),
     0x80 ||| ((c >>> 6) &&& 0x3F), 0x80 ||| (c &&& 0x3F)]

/-- Mirror of `GlkStream::read_byte_from_bufreader` (stream.rs lines
284-290): next byte of the stream, or `None` at the end. -/
def readByteFromList : List Nat → Option (Nat × List Nat)
  | [] => Option.none
  | b :: rest => some (b, rest)

/-- Mirror of `GlkStream::bytestream_to_char` (stream.rs lines 221-282):
branch on the lead byte's high bits (`0xxxxxxx` / `110xxxxx` / `1110xxxx`
/ `1111xxxx`), check every continuation byte against `10xxxxxx`,
reassemble the scalar with the source's shift-mask-or chains, and run it
through `char::from_u32`.  The remaining stream is returned alongside. -/
def bytestreamToChar (bs : List Nat) : Option (Nat × List Nat) :=
  match readByteFromList bs with
  | Option.none => Option.none
  | some (val0, bs0) =>
    if val0 < 0x80 then some (val0, bs0)
    else if val0 &&& 0xE0 = 0xC0 then
      match readByteFromList bs0 with
      | Option.none => Option.none
      | some (val1, bs1) =>
        if val1 &&& 0xC0 ≠ 0x80 then Option.none
        else
          match charFromU32 (((val0 &&& 0x1F) <<< 6) ||| (val1 &&& 0x3F)) with
          | Option.none => Option.none
          | some c => some (c, bs1)
    else if val0 &&& 0xF0 = 0xE0 then
      match readByteFromList bs0 with
      | Option.none => Option.none
      | some (val1, bs1) =>
        match readByteFromList bs1 with
        | Option.none => Option.none
        | some (val2, bs2) =>
          if val1 &&& 0xC0 ≠ 0x80 then Option.none
          else if val2 &&& 0xC0 ≠ 0x80 then Option.none
          else
            match charFromU32 ((((val0 &&& 0xF) <<< 12) &&& 0xF000 |||
                ((val1 &&& 0x3F) <<< 6) &&& 0xFC0) ||| (val2 &&& 0x3F)) with
            | Option.none => Option.none
            | some c => some (c, bs2)
    else if val0 &&& 0xF0 = 0xF0 then
      match readByteFromList bs0 with
      | Option.none => Option.none
      | some (val1, bs1) =>
        match readByteFromList bs1 with
        | Option.none => Option.none
        | some (val2, bs2) =>
          match readByteFromList bs2 with
          | Option.none => Option.none
          | some (val3, bs3) =>
            if val1 &&& 0xC0 ≠ 0x80 then Option.none
            else if val2 &&& 0xC0 ≠ 0x80 then Option.none
            else if val3 &&& 0xC0 ≠ 0x80 then Option.none
            else
              match charFromU32 (((((val0 &&& 0x7) <<< 18) &&& 0x1C0000 |||
                  ((val1 &&& 0x3F) <<< 12) &&& 0x3F000) |||
                  ((val2 &&& 0x3F) <<< 6) &&& 0xFC0) ||| (val3 &&& 0x3F)) with
              | Option.none => Option.none
              | some c => some (c, bs3)
    else Option.none

/-- Mirror of `FileStream::put_char_uni` (file_stream.rs lines 175-182):
the file, modelled as its byte contents, gains the code point's UTF-8
bytes. -/
def filePutCharUni (file : List Nat) (c : Nat) : List Nat :=
  file ++ encodeUtf8 c

/-- Writing a sequence of code points to a file stream, one
`put_char_uni` at a time (as `Glk::put_char_stream_uni` does for each). -/
def fileWriteChars (file : List Nat) : List Nat → List Nat
  | [] => file
  | c :: cs => fileWriteChars (filePutCharUni file c) cs

/-- Modelled from the spec: `FileStream::get_char_uni` is `todo!()` in the
snapshot under src (file_stream.rs lines 243-245), but the spec (section
4.2) and the repository's test `can_read_and_write_utf8_characters`
(entry/glk_stream.rs lines 599-647) fix the Unicode file-read path: it
decodes the next UTF-8 code point from the file's remaining bytes, which
is exactly `GlkStream::bytestream_to_char` over the stream's buffered
reader. -/
def fileGetCharUni (file : List Nat) : Option (Nat × List Nat) :=
  bytestreamToChar file

/-- Reading `n` code points back through the Unicode file-read path. -/
def fileReadChars : Nat → List Nat → Option (List Nat × List Nat)
  | 0, file => some ([], file)
  | n + 1, file =>
    match fileGetCharUni file with
    | Option.none => Option.none
    | some (c, rest) =>
      match fileReadChars n rest with
      | Option.none => Option.none
      | some (cs, rest') => some (c :: cs, rest')

/-! Bit-arithmetic helpers for the UTF-8 round trip. -/

/-- Mask by `0x3F` is reduction modulo 64. -/
theorem and_63 (x : Nat) : x &&& 63 = x % 64 := by
  have h := Nat.and_pow_two_sub_one_eq_mod x 6
  norm_num at h
  exact h

/-- Mask by `0x1F` is reduction modulo 32. -/
theorem and_31 (x : Nat) : x &&& 31 = x % 32 := by
  have h := Nat.and_pow_two_sub_one_eq_mod x 5
  norm_num at h
  exact h

/-- Mask by `0xF` is reduction modulo 16. -/
theorem and_15 (x : Nat) : x &&& 15 = x % 16 := by
  have h := Nat.and_pow_two_sub_one_eq_mod x 4
  norm_num at h
  exact h

/-- Mask by `0x7` is reduction modulo 8. -/
theorem and_7 (x : Nat) : x &&& 7 = x % 8 := by
  have h := Nat.and_pow_two_sub_one_eq_mod x 3
  norm_num at h
  exact h

/-- Bitwise or of disjoint parts is addition: `a` a multiple of `2^k`,
`b` below `2^k`. -/
theorem lor_eq_add (a b k : Nat) (ha : a % 2 ^ k = 0) (hb : b < 2 ^ k) :
    a ||| b = a + b := by
  obtain ⟨m, rfl⟩ : ∃ m, a = 2 ^ k * m :=
    ⟨a / 2 ^ k, (Nat.mul_div_cancel' (Nat.dvd_of_mod_eq_zero ha)).symm⟩
  exact (Nat.mul_add_lt_is_or hb m).symm

/-- A lead-byte mask fact: `(0xC0 + q) & 0xE0 = 0xC0` for 5-bit `q`. -/
theorem and224_of_192 (q : Nat) (h : q < 32) : (192 + q) &&& 224 = 192 := by
  interval_cases q <;> decide

/-- A lead-byte mask fact: `(0xE0 + q) & 0xE0 = 0xE0` for 4-bit `q`. -/
theorem and224_of_224 (q : Nat) (h : q < 16) : (224 + q) &&& 224 = 224 := by
  interval_cases q <;> decide

/-- A lead-byte mask fact: `(0xE0 + q) & 0xF0 = 0xE0` for 4-bit `q`. -/
theorem and240_of_224 (q : Nat) (h : q < 16) : (224 + q) &&& 240 = 224 := by
  interval_cases q <;> decide

/-- A lead-byte mask fact: `(0xF0 + q) & 0xE0 = 0xE0` for 4-bit `q`. -/
theorem and224_of_240 (q : Nat) (h : q < 16) : (240 + q) &&& 224 = 224 := by
  interval_cases q <;> decide

/-- A lead-byte mask fact: `(0xF0 + q) & 0xF0 = 0xF0` for 4-bit `q`. -/
theorem and240_of_240 (q : Nat) (h : q < 16) : (240 + q) &&& 240 = 240 := by
  interval_cases q <;> decide

/-- A continuation-byte mask fact: `(0x80 + r) & 0xC0 = 0x80` for 6-bit
`r`. -/
theorem and192_of_128 (r : Nat) (h : r < 64) : (128 + r) &&& 192 = 128 := by
  interval_cases r <;> decide

/-- The decoder's redundant field mask `& 0xF000` after `<< 12` of a
4-bit value changes nothing. -/
theorem shl12_and_F000 (q : Nat) (h : q < 16) : (q <<< 12) &&& 0xF000 = q * 4096 := by
  interval_cases q <;> decide

/-- The decoder's redundant field mask `& 0x3F000` after `<< 12` of a
6-bit value changes nothing. -/
theorem shl12_and_3F000 (q : Nat) (h : q < 64) : (q <<< 12) &&& 0x3F000 = q * 4096 := by
  interval_cases q <;> decide

/-- The decoder's redundant field mask `& 0xFC0` after `<< 6` of a 6-bit
value changes nothing. -/
theorem shl6_and_FC0 (q : Nat) (h : q < 64) : (q <<< 6) &&& 0xFC0 = q * 64 := by
  interval_cases q <;> decide

/-- The decoder's redundant field mask `& 0x1C0000` after `<< 18` of a
3-bit value changes nothing. -/
theorem shl18_and_1C0000 (q : Nat) (h : q < 8) : (q <<< 18) &&& 0x1C0000 = q * 262144 := by
  interval_cases q <;> decide

/-- Left shift by 6 then or with a 6-bit value is base-64 digit
composition. -/
theorem shl6_or (q r : Nat) (h : r < 64) : (q <<< 6) ||| r = q * 64 + r := by
  rw [Nat.shiftLeft_eq]
  exact lor_eq_add _ _ 6 (by omega) (by omega)

/-- Round trip for the 1-byte form: decoding an encoded ASCII code point
returns it and leaves the rest of the stream. -/
theorem decode_encode_1 (c : Nat) (h1 : c < 0x80) (rest : List Nat) :
    bytestreamToChar (encodeUtf8 c ++ rest) = some (c, rest) := by
  have henc : encodeUtf8 c = [c] := by
    unfold encodeUtf8
    rw [if_pos h1]
  rw [henc]
  unfold bytestreamToChar
  simp only [List.cons_append, List.nil_append, readByteFromList]
  rw [if_pos h1]

/-- Round trip for the 2-byte form. -/
theorem decode_encode_2 (c : Nat) (h1 : 0x80 ≤ c) (h2 : c < 0x800) (rest : List Nat) :
    bytestreamToChar (encodeUtf8 c ++ rest) = some (c, rest) := by
  have hb0 : 0xC0 ||| ((c >>> 6) &&& 0x1F) = 192 + c / 64 := by
    rw [Nat.shiftRight_eq_div_pow, and_31]
    norm_num
    rw [Nat.mod_eq_of_lt (by omega)]
    exact lor_eq_add 192 (c / 64) 6 (by norm_num) (by omega)
  have hb1 : 0x80 ||| (c &&& 0x3F) = 128 + c % 64 := by
    rw [and_63]
    exact lor_eq_add 128 (c % 64) 6 (by norm_num) (by omega)
  have henc : encodeUtf8 c = [192 + c / 64, 128 + c % 64] := by
    unfold encodeUtf8
    rw [if_neg (by omega), if_pos h2, hb0, hb1]
  rw [henc]
  unfold bytestreamToChar
  simp only [List.cons_append, readByteFromList]
  rw [if_neg (show ¬(192 + c / 64 < 128) by omega)]
  rw [if_pos (and224_of_192 (c / 64) (by omega))]
  rw [if_neg (show ¬((128 + c % 64) &&& 192 ≠ 128) by
    rw [and192_of_128 _ (by omega)]; omega)]
  have hval : (((192 + c / 64) &&& 31) <<< 6) ||| ((128 + c % 64) &&& 63) = c := by
    rw [and_31, and_63]
    have e1 : (192 + c / 64) % 32 = c / 64 := by omega
    have e2 : (128 + c % 64) % 64 = c % 64 := by omega
    rw [e1, e2, shl6_or _ _ (by omega)]
    omega
  rw [hval]
  have hv : charFromU32 c = some c := by
    unfold charFromU32 isUnicodeScalar
    rw [if_pos (by simp; omega)]
  rw [hv]
  simp

/-- Round trip for the 3-byte form (the code point must be a scalar: the
3-byte range contains the surrogates, which `char::from_u32` rejects but
`encode_utf8` is never fed). -/
theorem decode_encode_3 (c : Nat) (h1 : 0x800 ≤ c) (h2 : c < 0x10000)
    (hs : isUnicodeScalar c = true) (rest : List Nat) :
    bytestreamToChar (encodeUtf8 c ++ rest) = some (c, rest) := by
  have hb0 : 0xE0 ||| ((c >>> 12) &&& 0x0F) = 224 + c / 4096 := by
    rw [Nat.shiftRight_eq_div_pow, and_15]
    norm_num
    rw [Nat.mod_eq_of_lt (by omega)]
    exact lor_eq_add 224 (c / 4096) 5 (by norm_num) (by omega)
  have hb1 : 0x80 ||| ((c >>> 6) &&& 0x3F) = 128 + c / 64 % 64 := by
    rw [Nat.shiftRight_eq_div_pow, and_63]
    norm_num
    exact lor_eq_add 128 (c / 64 % 64) 6 (by norm_num) (by omega)
  have hb2 : 0x80 ||| (c &&& 0x3F) = 128 + c % 64 := by
    rw [and_63]
    exact lor_eq_add 128 (c % 64) 6 (by norm_num) (by omega)
  have henc : encodeUtf8 c =
      [224 + c / 4096, 128 + c / 64 % 64, 128 + c % 64] := by
    unfold encodeUtf8
    rw [if_neg (by omega), if_neg (by omega), if_pos h2, hb0, hb1, hb2]
  rw [henc]
  unfold bytestreamToChar
  simp only [List.cons_append, readByteFromList]
  rw [if_neg (show ¬(224 + c / 4096 < 128) by omega)]
  rw [if_neg (show ¬((224 + c / 4096) &&& 224 = 192) by
    rw [and224_of_224 _ (by omega)]; omega)]
  rw [if_pos (and240_of_224 (c / 4096) (by omega))]
  rw [if_neg (show ¬((128 + c / 64 % 64) &&& 192 ≠ 128) by
    rw [and192_of_128 _ (by omega)]; omega)]
  rw [if_neg (show ¬((128 + c % 64) &&& 192 ≠ 128) by
    rw [and192_of_128 _ (by omega)]; omega)]
  have hval : ((((224 + c / 4096) &&& 0xF) <<< 12) &&& 0xF000 |||
      ((128 + c / 64 % 64) &&& 0x3F) <<< 6 &&& 0xFC0) ||| ((128 + c % 64) &&& 0x3F) = c := by
    rw [and_15, and_63, and_63]
    have e0 : (224 + c / 4096) % 16 = c / 4096 := by omega
    have e1 : (128 + c / 64 % 64) % 64 = c / 64 % 64 := by omega
    have e2 : (128 + c % 64) % 64 = c % 64 := by omega
    rw [e0, e1, e2, shl12_and_F000 _ (by omega), shl6_and_FC0 _ (by omega)]
    rw [lor_eq_add (c / 4096 * 4096) (c / 64 % 64 * 64) 12 (by omega) (by omega)]
    rw [lor_eq_add (c / 4096 * 4096 + c / 64 % 64 * 64) (c % 64) 6 (by omega) (by omega)]
    omega
  rw [hval]
  have hv : charFromU32 c = some c := by
    unfold charFromU32
    rw [if_pos hs]
  rw [hv]
  simp

/-- Round trip for the 4-byte form. -/
theorem decode_encode_4 (c : Nat) (h1 : 0x10000 ≤ c) (h2 : c < 0x110000) (rest : List Nat) :
    bytestreamToChar (encodeUtf8 c ++ rest) = some (c, rest) := by
  have hb0 : 0xF0 ||| ((c >>> 18) &&& 0x07) = 240 + c / 262144 := by
    rw [Nat.shiftRight_eq_div_pow, and_7]
    norm_num
    rw [Nat.mod_eq_of_lt (by omega)]
    exact lor_eq_add 240 (c / 262144) 4 (by norm_num) (by omega)
  have hb1 : 0x80 ||| ((c >>> 12) &&& 0x3F) = 128 + c / 4096 % 64 := by
    rw [Nat.shiftRight_eq_div_pow, and_63]
    norm_num
    exact lor_eq_add 128 (c / 4096 % 64) 6 (by norm_num) (by omega)
  have hb2 : 0x80 ||| ((c >>> 6) &&& 0x3F) = 128 + c / 64 % 64 := by
    rw [Nat.shiftRight_eq_div_pow, and_63]
    norm_num
    exact lor_eq_add 128 (c / 64 % 64) 6 (by norm_num) (by omega)
  have hb3 : 0x80 ||| (c &&& 0x3F) = 128 + c % 64 := by
    rw [and_63]
    exact lor_eq_add 128 (c % 64) 6 (by norm_num) (by omega)
  have henc : encodeUtf8 c =
      [240 + c / 262144, 128 + c / 4096 % 64, 128 + c / 64 % 64, 128 + c % 64] := by
    unfold encodeUtf8
    rw [if_neg (by omega), if_neg (by omega), if_neg (by omega), hb0, hb1, hb2, hb3]
  rw [henc]
  unfold bytestreamToChar
  simp only [List.cons_append, readByteFromList]
  rw [if_neg (show ¬(240 + c / 262144 < 128) by omega)]
  rw [if_neg (show ¬((240 + c / 262144) &&& 224 = 192) by
    rw [and224_of_240 _ (by omega)]; omega)]
  rw [if_neg (show ¬((240 + c / 262144) &&& 240 = 224) by
    rw [and240_of_240 _ (by omega)]; omega)]
  rw [if_pos (and240_of_240 (c / 262144) (by omega))]
  rw [if_neg (show ¬((128 + c / 4096 % 64) &&& 192 ≠ 128) by
    rw [and192_of_128 _ (by omega)]; omega)]
  rw [if_neg (show ¬((128 + c / 64 % 64) &&& 192 ≠ 128) by
    rw [and192_of_128 _ (by omega)]; omega)]
  rw [if_neg (show ¬((128 + c % 64) &&& 192 ≠ 128) by
    rw [and192_of_128 _ (by omega)]; omega)]
  have hval : (((((240 + c / 262144) &&& 0x7) <<< 18) &&& 0x1C0000 |||
      ((128 + c / 4096 % 64) &&& 0x3F) <<< 12 &&& 0x3F000) |||
      ((128 + c / 64 % 64) &&& 0x3F) <<< 6 &&& 0xFC0) ||| ((128 + c % 64) &&& 0x3F) = c := by
    rw [and_7, and_63, and_63, and_63]
    have e0 : (240 + c / 262144) % 8 = c / 262144 := by omega
    have e1 : (128 + c / 4096 % 64) % 64 = c / 4096 % 64 := by omega
    have e2 : (128 + c / 64 % 64) % 64 = c / 64 % 64 := by omega
    have e3 : (128 + c % 64) % 64 = c % 64 := by omega
    rw [e0, e1, e2, e3, shl18_and_1C0000 _ (by omega), shl12_and_3F000 _ (by omega),
      shl6_and_FC0 _ (by omega)]
    rw [lor_eq_add (c / 262144 * 262144) (c / 4096 % 64 * 4096) 18 (by omega) (by omega)]
    rw [lor_eq_add (c / 262144 * 262144 + c / 4096 % 64 * 4096) (c / 64 % 64 * 64) 12
      (by omega) (by omega)]
    rw [lor_eq_add (c / 262144 * 262144 + c / 4096 % 64 * 4096 + c / 64 % 64 * 64) (c % 64) 6
      (by omega) (by omega)]
    omega
  rw [hval]
  have hv : charFromU32 c = some c := by
    unfold charFromU32 isUnicodeScalar
    rw [if_pos (by simp; omega)]
  rw [hv]
  simp

/-- Decoding an encoded Unicode scalar value returns it exactly, for all
four UTF-8 lengths, and consumes precisely its bytes. -/
theorem bytestreamToChar_encodeUtf8 (c : Nat) (h : isUnicodeScalar c = true)
    (rest : List Nat) : bytestreamToChar (encodeUtf8 c ++ rest) = some (c, rest) := by
  have hb : c < 0x110000 := by
    unfold isUnicodeScalar at h
    simp at h
    omega
  by_cases h1 : c < 0x80
  · exact decode_encode_1 c h1 rest
  · by_cases h2 : c < 0x800
    · exact decode_encode_2 c (by omega) h2 rest
    · by_cases h3 : c < 0x10000
      · exact decode_encode_3 c (by omega) h3 h rest
      · exact decode_encode_4 c (by omega) hb rest

/-- Writing to a non-empty file appends what writing to an empty file
produces. -/
theorem fileWriteChars_eq (cs : List Nat) :
    ∀ file, fileWriteChars file cs = file ++ fileWriteChars [] cs := by
  induction cs with
  | nil => intro file; simp [fileWriteChars]
  | cons c cs ih =>
    intro file
    show fileWriteChars (filePutCharUni file c) cs =
      file ++ fileWriteChars (filePutCharUni [] c) cs
    rw [ih (filePutCharUni file c), ih (filePutCharUni [] c)]
    simp [filePutCharUni]

/-- Helper for C9, generalized over trailing bytes: reading back as many
code points as were written consumes exactly their encoding. -/
theorem fileReadChars_writeChars (cs : List Nat) :
    ∀ rest, (∀ c ∈ cs, isUnicodeScalar c = true) →
    fileReadChars cs.length (fileWriteChars [] cs ++ rest) = some (cs, rest) := by
  induction cs with
  | nil => intro rest h; simp [fileWriteChars, fileReadChars]
  | cons c cs ih =>
    intro rest h
    have hw : fileWriteChars [] (c :: cs) = encodeUtf8 c ++ fileWriteChars [] cs := by
      show fileWriteChars (filePutCharUni [] c) cs = _
      rw [fileWriteChars_eq]
      simp [filePutCharUni]
    rw [hw, List.append_assoc]
    show fileReadChars (cs.length + 1) _ = _
    unfold fileReadChars fileGetCharUni
    rw [bytestreamToChar_encodeUtf8 c (h c (by simp)) _]
    dsimp only
    rw [ih rest (fun x hx => h x (by simp [hx]))]

/-- C9: for every sequence of Unicode scalar values (1-, 2-, 3- and
4-byte UTF-8 forms alike), writing them to a file stream through the
Unicode write path (`FileStream::put_char_uni`, one `encode_utf8` frame
per code point) and reading them back through the Unicode file-read path
(`GlkStream::bytestream_to_char`) yields exactly the original code points
in the original order, consuming the whole file. -/
theorem c9_utf8_round_trip (cs : List Nat) (h : ∀ c ∈ cs, isUnicodeScalar c = true) :
    fileReadChars cs.length (fileWriteChars [] cs) = some (cs, []) := by
  have := fileReadChars_writeChars cs [] h
  simpa using this

/-- Witness for C9 on the spec's example mix `'a'` (U+0061, 1 byte),
`'ß'` (U+00DF, 2 bytes), `'ࢠ'` (U+08A0, 3 bytes), `'🌸'` (U+1F338, 4
bytes). -/
theorem c9_witness :
    fileReadChars 4 (fileWriteChars [] [97, 223, 2208, 127800]) =
      some ([97, 223, 2208, 127800], []) :=
  c9_utf8_round_trip [97, 223, 2208, 127800] (by decide)
